import Mathlib

/-!
Verification of the Modbus gateway Port Polling Engine against its source.

The definitions below are a shallow embedding of the Python sources
(src/utils.py and src/port_manager.py).  Machine integers are modelled as
Nat/Int; the Python bit operations on 16-bit register words are translated
arithmetically: `x & 0xFF` becomes `x % 256`, `x >> 8` becomes `x / 256`,
`(hi << 8) | lo` with `lo < 256` becomes `hi * 256 + lo`, and likewise for
16-bit shifts on register pairs (register words are 16-bit by the Modbus
data model).  Fallible code returns `Except String`.  Floating-point
decoding (IEEE-754 binary32) is kept symbolic: the float branch carries
the composed 32-bit pattern instead of a numeric value, since no verified
property inspects a decoded float number.
-/

namespace ModbusGateway

/-- Swap of the two bytes of a 16-bit word, as written inline throughout
DataConverter (src/utils.py): `((value & 0xFF) << 8) | ((value >> 8) & 0xFF)`. -/
def swapBytes16 (value : Nat) : Nat :=
  (value % 256) * 256 + (value / 256) % 256

/-- DataConverter.int16_to_signed (src/utils.py lines 20-29): optional byte
swap for little byte order, then reinterpretation of the 16-bit pattern as
two's-complement. -/
def int16_to_signed (value : Nat) (byteorder : String) : Int :=
  let value := if byteorder = "little" then swapBytes16 value else value
  if value ≥ 0x8000 then (value : Int) - 0x10000 else (value : Int)

/-- DataConverter.uint32_from_registers (src/utils.py lines 48-60): word
swap for little word order, byte swap of each word for little byte order,
then composition `(high << 16) | low`. -/
def uint32_from_registers (high low : Nat) (byteorder wordorder : String) : Nat :=
  let hl := if wordorder = "little" then (low, high) else (high, low)
  let h := if byteorder = "little" then swapBytes16 hl.1 else hl.1
  let l := if byteorder = "little" then swapBytes16 hl.2 else hl.2
  h * 65536 + l

/-- DataConverter.int32_from_registers (src/utils.py lines 31-46): same
reordering as the unsigned case, then two's-complement reinterpretation of
the composed 32-bit pattern. -/
def int32_from_registers (high low : Nat) (byteorder wordorder : String) : Int :=
  let hl := if wordorder = "little" then (low, high) else (high, low)
  let h := if byteorder = "little" then swapBytes16 hl.1 else hl.1
  let l := if byteorder = "little" then swapBytes16 hl.2 else hl.2
  let value := h * 65536 + l
  if value ≥ 0x80000000 then (value : Int) - 0x100000000 else (value : Int)

/-- DataConverter.float_from_registers (src/utils.py lines 62-77), modelled
up to the IEEE-754 reinterpretation: the function applies the same word and
byte reordering as the integer decoders and packs the two words big-endian;
we return that composed 32-bit pattern. -/
def float_from_registers_pattern (high low : Nat) (byteorder wordorder : String) : Nat :=
  let hl := if wordorder = "little" then (low, high) else (high, low)
  let h := if byteorder = "little" then swapBytes16 hl.1 else hl.1
  let l := if byteorder = "little" then swapBytes16 hl.2 else hl.2
  h * 65536 + l

/-- Round half to even on a rational, mirroring the Python builtin `round`
on the exact value. -/
def pyRoundHalfEven (q : ℚ) : ℤ :=
  let f := ⌊q⌋
  let r := q - (f : ℚ)
  if r < 1/2 then f
  else if 1/2 < r then f + 1
  else if f % 2 = 0 then f else f + 1

/-- Python `round(value, p)` for `p ≥ 0`, on the exact rational value. -/
def roundTo (p : ℕ) (q : ℚ) : ℚ :=
  (pyRoundHalfEven (q * 10 ^ p) : ℚ) / 10 ^ p

/-- The scaling tail shared by convert_value and convert_from_registers
(src/utils.py lines 97-101 and 138-141): `value = value * scale + offset`,
then `round(value, precision)` when `precision >= 0` (the scaled value is a
Python float there, so the float guard is satisfied). -/
def applyScale (v scale offset : ℚ) (precision : ℤ) : ℚ :=
  let value := v * scale + offset
  if 0 ≤ precision then roundTo precision.toNat value else value

/-- Result of a conversion.  Numeric results are exact rationals; a decoded
Float32 is kept as its composed 32-bit pattern together with the scaling
parameters (floating-point arithmetic is outside the embedding). -/
inductive ConvValue where
  | num (q : ℚ)
  | float32 (pattern : Nat) (scale offset : ℚ) (precision : ℤ)
deriving DecidableEq

/-- DataConverter.convert_value (src/utils.py lines 79-103).  Note that the
final `else` branch (line 92-95) silently keeps the raw value for every
data type outside int16/uint16/bool; the function has no failure path. -/
def convert_value (raw_value : Nat) (data_type : String) (scale offset : ℚ)
    (precision : ℤ) (byteorder wordorder : String) : ConvValue :=
  let value : ℚ :=
    if data_type = "int16" then ((int16_to_signed raw_value byteorder : ℤ) : ℚ)
    else if data_type = "uint16" then
      (if byteorder = "little" then (swapBytes16 raw_value : ℚ) else (raw_value : ℚ))
    else if data_type = "bool" then (if raw_value ≠ 0 then 1 else 0)
    else (raw_value : ℚ)
  ConvValue.num (applyScale value scale offset precision)

/-- DataConverter.convert_from_registers (src/utils.py lines 105-146):
empty-array check, 16-bit delegation to convert_value on registers[0],
32-bit decode of registers[0..1] after a length check, unknown-type
rejection. -/
def convert_from_registers (registers : List Nat) (data_type : String)
    (byteorder wordorder : String) (scale offset : ℚ) (precision : ℤ) :
    Except String ConvValue :=
  match registers with
  | [] => .error "empty register array"
  | r0 :: rest =>
    if data_type = "int16" ∨ data_type = "uint16" ∨ data_type = "bool" then
      .ok (convert_value r0 data_type scale offset precision byteorder wordorder)
    else if data_type = "int32" ∨ data_type = "uint32" ∨ data_type = "float" then
      if (r0 :: rest).length < 2 then
        .error ("type " ++ data_type ++ " requires at least 2 registers")
      else
        let r1 := rest.headD 0
        if data_type = "int32" then
          .ok (.num (applyScale ((int32_from_registers r0 r1 byteorder wordorder : ℤ) : ℚ)
                scale offset precision))
        else if data_type = "uint32" then
          .ok (.num (applyScale ((uint32_from_registers r0 r1 byteorder wordorder : ℕ) : ℚ)
                scale offset precision))
        else
          .ok (.float32 (float_from_registers_pattern r0 r1 byteorder wordorder)
                scale offset precision)
    else .error ("unknown data type: " ++ data_type)

/-- Byte swap of a 16-bit word as the specification words it: the two bytes
of the word exchange places. -/
def specByteSwap (w : Nat) : Nat :=
  (w % 256) * 256 + (w / 256) % 256

/-- The 32-bit composition pipeline as the specification words it (spec
section 4.1): swap the words when wordOrder is little, then byte-swap each
word independently when byteOrder is little, then compose big-endian as
`high<<16 | low`. -/
def specCompose32 (w0 w1 : Nat) (byteOrder wordOrder : String) : Nat :=
  let p := if wordOrder = "little" then (w1, w0) else (w0, w1)
  let hi := if byteOrder = "little" then specByteSwap p.1 else p.1
  let lo := if byteOrder = "little" then specByteSwap p.2 else p.2
  hi * 65536 + lo

theorem swapBytes16_lt (v : Nat) : swapBytes16 v < 65536 := by
  unfold swapBytes16
  omega

/-- The bit list of one byte, most significant bit first, as produced by
`format(byte, '08b')` in DataConverter.register_to_bits. -/
def byteToBits (b : Nat) : List Bool :=
  [b.testBit 7, b.testBit 6, b.testBit 5, b.testBit 4,
   b.testBit 3, b.testBit 2, b.testBit 1, b.testBit 0]

/-- Value of a most-significant-first bit list, as computed by
`int(bits, 2)` in DataConverter.register_bits_to_bytes. -/
def bitsToNat (bits : List Bool) : Nat :=
  bits.foldl (fun acc b => 2 * acc + (if b then 1 else 0)) 0

/-- DataConverter.register_to_bits (src/utils.py lines 161-195): range
check 0-65535 (the lower bound is implicit for Nat), byte extraction in
the requested order, and concatenation of the two 8-bit groups. -/
def register_to_bits (register_value : Nat) (byteorder : String) :
    Except String (List Bool) :=
  if register_value > 0xFFFF then
    .error "register value must be in range 0-65535"
  else if byteorder = "big" then
    .ok (byteToBits ((register_value / 256) % 256) ++ byteToBits (register_value % 256))
  else if byteorder = "little" then
    .ok (byteToBits (register_value % 256) ++ byteToBits ((register_value / 256) % 256))
  else .error "unknown byte order"

/-- DataConverter.register_bits_to_bytes (src/utils.py lines 197-230):
length check, split into two 8-bit groups, and recombination of the two
bytes in the requested order. -/
def register_bits_to_bytes (bits : List Bool) (byteorder : String) :
    Except String Nat :=
  if bits.length ≠ 16 then
    .error "bit string must contain exactly 16 characters"
  else
    let byte1 := bitsToNat (bits.take 8)
    let byte2 := bitsToNat (bits.drop 8)
    if byteorder = "big" then .ok (byte1 * 256 + byte2)
    else if byteorder = "little" then .ok (byte2 * 256 + byte1)
    else .error "unknown byte order"

/-- Register configuration (src/models.py RegisterConfig), restricted to the
fields the Block Coalescer and its specification read: the register kind
(RegisterType value string), the address, and the data type string. -/
structure RegisterConfig where
  type : String
  address : Nat
  data_type : String
deriving DecidableEq

/-- One step of PortManager.group_registers_by_type (src/port_manager.py
lines 486-493): insert a register into the group of its kind, keeping the
insertion order of both kinds and registers (Python dict plus append). -/
def addToGroup : List (String × List RegisterConfig) → RegisterConfig →
    List (String × List RegisterConfig)
  | [], r => [(r.type, [r])]
  | (k, l) :: rest, r =>
    if k = r.type then (k, l ++ [r]) :: rest else (k, l) :: addToGroup rest r

/-- PortManager.group_registers_by_type (src/port_manager.py lines 486-493). -/
def group_registers_by_type (registers : List RegisterConfig) :
    List (String × List RegisterConfig) :=
  registers.foldl addToGroup []

/-- Stable sort of registers by address, modelling
`sorted(registers, key=lambda x: x.address)` in group_registers_into_blocks. -/
def sortByAddress (registers : List RegisterConfig) : List RegisterConfig :=
  List.insertionSort (fun a b => a.address ≤ b.address) registers

/-- The walk of group_registers_into_blocks (src/port_manager.py lines
507-515): extend the current block while the next address is exactly the
previous address plus one, otherwise close the block and start a new one. -/
def blocksWalk : Nat → Nat → Nat → List RegisterConfig → List (Nat × Nat)
  | _, start, count, [] => [(start, count)]
  | prevAddr, start, count, r :: rest =>
    if r.address = prevAddr + 1 then blocksWalk r.address start (count + 1) rest
    else (start, count) :: blocksWalk r.address r.address 1 rest

/-- PortManager.group_registers_into_blocks (src/port_manager.py lines
495-516): empty guard, sort by address, then the consecutive-address walk.
The data type of a register is never consulted. -/
def group_registers_into_blocks (registers : List RegisterConfig) :
    List (Nat × Nat) :=
  match sortByAddress registers with
  | [] => []
  | r :: rest => blocksWalk r.address r.address 1 rest

/-- Address span of a register as the specification assigns it (spec
section 4.2): two consecutive addresses for the 32-bit and float types,
one address otherwise. -/
def regSpanLen (r : RegisterConfig) : Nat :=
  if r.data_type = "int32" ∨ r.data_type = "uint32" ∨ r.data_type = "float" then 2 else 1

/-- Merge walk of the Block Coalescer as the specification words it:
extend the current run while the next span starts at or before the current
end, emit each run as (start, end minus start). -/
def specMerge : Nat → Nat → List (Nat × Nat) → List (Nat × Nat)
  | start, stop, [] => [(start, stop - start)]
  | start, stop, (s, e) :: rest =>
    if s ≤ stop then specMerge start (max stop e) rest
    else (start, stop - start) :: specMerge s e rest

/-- The Block Coalescer algorithm as the specification words it (spec
section 4.2): expand every register to its address span, sort by start
address, then merge overlapping or touching spans into runs. -/
def specCoalesce (registers : List RegisterConfig) : List (Nat × Nat) :=
  match (sortByAddress registers).map (fun r => (r.address, r.address + regSpanLen r)) with
  | [] => []
  | (s, e) :: rest => specMerge s e rest

/-- A block (start, count) covers address a when a lies inside the
half-open window of count addresses starting at start. -/
def blockCovers (b : Nat × Nat) (a : Nat) : Prop :=
  b.1 ≤ a ∧ a < b.1 + b.2

instance (b : Nat × Nat) (a : Nat) : Decidable (blockCovers b a) := by
  unfold blockCovers
  infer_instance

/-- The register set of scenario S4: Holding registers at addresses 10
(Int16), 11 (Float32), 13 (Int16) and 20 (UInt16). -/
def regsS4 : List RegisterConfig :=
  [⟨"holding", 10, "int16"⟩, ⟨"holding", 11, "float"⟩,
   ⟨"holding", 13, "int16"⟩, ⟨"holding", 20, "uint16"⟩]

/-- A single Holding Float32 register at address 11, whose two-word span is
the pair of addresses 11 and 12. -/
def regF11 : RegisterConfig := ⟨"holding", 11, "float"⟩

/-- C1: the claim states that the Block Coalescer expands registers to
their address spans and, on the S4 register set, yields blocks (10,5) and
(20,1).  The code does neither: group_registers_into_blocks never consults
the data type and merges only strictly consecutive addresses, producing
(10,2),(13,1),(20,1) on S4; even the span-expanding algorithm the
specification describes yields (10,4),(20,1) there, not (10,5),(20,1). -/
theorem c1_coalescer_s4_divergence :
    group_registers_by_type regsS4 = [("holding", regsS4)] ∧
    group_registers_into_blocks regsS4 = [(10, 2), (13, 1), (20, 1)] ∧
    specCoalesce regsS4 = [(10, 4), (20, 1)] ∧
    group_registers_into_blocks regsS4 ≠ [(10, 5), (20, 1)] ∧
    specCoalesce regsS4 ≠ [(10, 5), (20, 1)] := by
  decide

/-- C2: the claim states that every configured register, including the
two-address span of a Float32 register, lies entirely within some produced
run.  For a lone Holding Float32 register at address 11 the code produces
the single run (11,1), which does not contain address 12, the second word
of the span. -/
theorem c2_float_span_uncovered :
    group_registers_into_blocks [regF11] = [(11, 1)] ∧
    regSpanLen regF11 = 2 ∧
    ¬ ∃ b ∈ group_registers_into_blocks [regF11], blockCovers b 12 := by
  decide

theorem uint32_eq_specCompose (w0 w1 : Nat) (bo wo : String) :
    uint32_from_registers w0 w1 bo wo = specCompose32 w0 w1 bo wo := by
  unfold uint32_from_registers specCompose32 specByteSwap swapBytes16
  by_cases hwo : wo = "little" <;> by_cases hbo : bo = "little" <;> simp [hwo, hbo]

theorem specCompose32_lt (w0 w1 : Nat) (bo wo : String)
    (h0 : w0 < 65536) (h1 : w1 < 65536) :
    specCompose32 w0 w1 bo wo < 4294967296 := by
  unfold specCompose32 specByteSwap
  by_cases hwo : wo = "little" <;> by_cases hbo : bo = "little" <;>
    simp [hwo, hbo] <;> omega

theorem int32_eq_specCompose (w0 w1 : Nat) (bo wo : String) :
    int32_from_registers w0 w1 bo wo =
      (if 2147483648 ≤ specCompose32 w0 w1 bo wo
       then (specCompose32 w0 w1 bo wo : ℤ) - 4294967296
       else (specCompose32 w0 w1 bo wo : ℤ)) := by
  unfold int32_from_registers specCompose32 specByteSwap swapBytes16
  by_cases hwo : wo = "little" <;> by_cases hbo : bo = "little" <;>
    simp [hwo, hbo, ge_iff_le]

/-- C3: for all register words below 2^16 and both byte and word orders,
the unsigned 32-bit decoder equals the specification pipeline (word swap
when wordOrder is little, independent byte swaps when byteOrder is little,
big-endian composition), the composed pattern fits in 32 bits, and the
signed decoder reinterprets patterns at or above 2^31 by subtracting 2^32. -/
theorem c3_decode32_pipeline (w0 w1 : Nat) (byteorder wordorder : String)
    (h0 : w0 < 65536) (h1 : w1 < 65536)
    (hbo : byteorder = "big" ∨ byteorder = "little")
    (hwo : wordorder = "big" ∨ wordorder = "little") :
    uint32_from_registers w0 w1 byteorder wordorder =
      specCompose32 w0 w1 byteorder wordorder ∧
    specCompose32 w0 w1 byteorder wordorder < 4294967296 ∧
    int32_from_registers w0 w1 byteorder wordorder =
      (if 2147483648 ≤ specCompose32 w0 w1 byteorder wordorder
       then (specCompose32 w0 w1 byteorder wordorder : ℤ) - 4294967296
       else (specCompose32 w0 w1 byteorder wordorder : ℤ)) :=
  ⟨uint32_eq_specCompose w0 w1 byteorder wordorder,
   specCompose32_lt w0 w1 byteorder wordorder h0 h1,
   int32_eq_specCompose w0 w1 byteorder wordorder⟩

/-- Witness for C3 at the S2 scenario words 0xF5C3, 0x4048 with little
word order. -/
theorem c3_decode32_pipeline_witness :
    uint32_from_registers 0xF5C3 0x4048 "big" "little" =
      specCompose32 0xF5C3 0x4048 "big" "little" ∧
    specCompose32 0xF5C3 0x4048 "big" "little" < 4294967296 ∧
    int32_from_registers 0xF5C3 0x4048 "big" "little" =
      (if 2147483648 ≤ specCompose32 0xF5C3 0x4048 "big" "little"
       then (specCompose32 0xF5C3 0x4048 "big" "little" : ℤ) - 4294967296
       else (specCompose32 0xF5C3 0x4048 "big" "little" : ℤ)) :=
  c3_decode32_pipeline 0xF5C3 0x4048 "big" "little" (by decide) (by decide)
    (Or.inl rfl) (Or.inr rfl)

/-- C4 counterexample: the claim states that the single-word decode path
convert_value fails for 32-bit and unknown data types, yet the code
silently returns the scaled raw value for both a 32-bit request and an
unknown type name. -/
theorem c4_convert_value_silent :
    convert_value 7 "int32" 1 0 2 "big" "big" = ConvValue.num 7 ∧
    convert_value 7 "no_such_type" 1 0 2 "big" "big" = ConvValue.num 7 := by
  constructor <;>
  · simp [convert_value, applyScale, roundTo, pyRoundHalfEven]
    norm_num

/-- C4 amended: convert_from_registers fails for every 32-bit request with
fewer than two words and for every unknown data type, while convert_value
silently returns the scaled raw value for every data type outside
int16/uint16/bool. -/
theorem c4_amended_error_paths :
    (∀ (registers : List Nat) (data_type byteorder wordorder : String)
       (scale offset : ℚ) (precision : ℤ),
      (data_type = "int32" ∨ data_type = "uint32" ∨ data_type = "float") →
      registers.length < 2 →
      ∃ e, convert_from_registers registers data_type byteorder wordorder
             scale offset precision = .error e) ∧
    (∀ (registers : List Nat) (data_type byteorder wordorder : String)
       (scale offset : ℚ) (precision : ℤ),
      data_type ∉ ["int16", "uint16", "bool", "int32", "uint32", "float"] →
      ∃ e, convert_from_registers registers data_type byteorder wordorder
             scale offset precision = .error e) ∧
    (∀ (raw : Nat) (data_type : String) (scale offset : ℚ) (precision : ℤ)
       (byteorder wordorder : String),
      data_type ∉ ["int16", "uint16", "bool"] →
      convert_value raw data_type scale offset precision byteorder wordorder =
        ConvValue.num (applyScale (raw : ℚ) scale offset precision)) := by
  refine ⟨?_, ?_, ?_⟩
  · rintro regs dt bo wo sc off pr (rfl | rfl | rfl) hlen <;>
      rcases regs with _ | ⟨r0, rest⟩ <;>
      simp_all [convert_from_registers]
  · intro regs dt bo wo sc off pr hdt
    simp only [List.mem_cons, List.not_mem_nil, or_false, not_or] at hdt
    obtain ⟨h1, h2, h3, h4, h5, h6⟩ := hdt
    rcases regs with _ | ⟨r0, rest⟩ <;>
      simp [convert_from_registers, h1, h2, h3, h4, h5, h6]
  · intro raw dt sc off pr bo wo hdt
    simp only [List.mem_cons, List.not_mem_nil, or_false, not_or] at hdt
    obtain ⟨h1, h2, h3⟩ := hdt
    simp [convert_value, h1, h2, h3]

/-- Witness for C4 amended: a one-word Int32 request fails, an unknown
type fails, and convert_value silently converts a Float32 request. -/
theorem c4_amended_error_paths_witness :
    (∃ e, convert_from_registers [5] "int32" "big" "big" 1 0 2 = .error e) ∧
    (∃ e, convert_from_registers [1, 2] "weird" "big" "big" 1 0 2 = .error e) ∧
    convert_value 9 "float" 1 0 2 "big" "big" =
      ConvValue.num (applyScale (9 : ℚ) 1 0 2) :=
  ⟨c4_amended_error_paths.1 [5] "int32" "big" "big" 1 0 2 (Or.inl rfl) (by decide),
   c4_amended_error_paths.2.1 [1, 2] "weird" "big" "big" 1 0 2 (by decide),
   c4_amended_error_paths.2.2 9 "float" 1 0 2 "big" "big" (by decide)⟩

/-- Device configuration (src/models.py DeviceConfig), restricted to the
fields the Port Runner polling-interval logic reads. -/
structure DeviceConfig where
  name : String
  poll_interval : ℚ
  enabled : Bool
deriving DecidableEq

/-- Port configuration (src/models.py PortConfig), restricted to the
fields the Port Runner retry and interval logic reads. -/
structure PortConfig where
  name : String
  max_retries : Nat
  retry_delay : ℚ
  devices : List DeviceConfig
deriving DecidableEq

/-- Minimum poll interval across the enabled devices of a port, as
computed by the min(...) generator in adjust_polling_interval
(src/port_manager.py line 616-617); 0 when no device is enabled (the code
would raise there). -/
def minEnabledInterval (p : PortConfig) : ℚ :=
  match (p.devices.filter (fun d => d.enabled)).map (fun d => d.poll_interval) with
  | [] => 0
  | x :: xs => xs.foldl min x

/-- PortManager.adjust_polling_interval (src/port_manager.py lines
610-631), returning the sleep duration the method performs: early return
(no sleep) when the port has no devices, minimum interval over enabled
devices, estimated cycle time of 0.05 seconds per configured device, then
sleep of the difference when the estimate is below the minimum interval,
otherwise a warning and no sleep.  The Python min() raises on a port whose
devices are all disabled; that surfaces as an error value. -/
def adjust_polling_interval (p : PortConfig) : Except String ℚ :=
  if p.devices = [] then .ok 0
  else
    match (p.devices.filter (fun d => d.enabled)).map (fun d => d.poll_interval) with
    | [] => .error "min of an empty sequence"
    | x :: xs =>
      let min_interval := xs.foldl min x
      let cycle_time := (p.devices.length : ℚ) * 0.05
      if cycle_time < min_interval then .ok (min_interval - cycle_time) else .ok 0

/-- The sleep duration the claim asserts: max(0, minDevicePollInterval
minus the actually elapsed cycle time). -/
def claimSleepFormula (p : PortConfig) (elapsed : ℚ) : ℚ :=
  max 0 (minEnabledInterval p - elapsed)

/-- A port with one enabled device polled every second. -/
def portC5 : PortConfig := ⟨"p1", 3, 5, [⟨"d1", 1, true⟩]⟩

/-- C5 counterexample: the code computes the sleep from a fixed estimate
of 0.05 seconds per device, not from the actually elapsed cycle time.  On
a port with one enabled device of interval 1, a cycle that actually took 2
seconds should by the claim produce no sleep, yet the code sleeps 19/20. -/
theorem c5_sleep_ignores_elapsed :
    adjust_polling_interval portC5 = .ok (19/20) ∧
    claimSleepFormula portC5 2 = 0 ∧
    adjust_polling_interval portC5 ≠ .ok (claimSleepFormula portC5 2) := by
  refine ⟨?_, ?_, ?_⟩ <;>
    simp [adjust_polling_interval, claimSleepFormula, minEnabledInterval, portC5] <;>
    norm_num

/-- C5 amended: after a cycle the runner sleeps exactly
max(0, minEnabledInterval minus 0.05 times the number of configured
devices); the subtrahend is a fixed estimate, not the elapsed time. -/
theorem c5_amended_sleep_estimate (p : PortConfig)
    (hne : p.devices ≠ [])
    (hen : p.devices.filter (fun d => d.enabled) ≠ []) :
    adjust_polling_interval p =
      .ok (max 0 (minEnabledInterval p - (p.devices.length : ℚ) * 0.05)) := by
  unfold adjust_polling_interval minEnabledInterval
  rw [if_neg hne]
  rcases h : (p.devices.filter (fun d => d.enabled)).map (fun d => d.poll_interval) with
    _ | ⟨x, xs⟩
  · exact absurd (List.map_eq_nil_iff.mp h) hen
  · rw [h]
    simp only
    split_ifs with hlt
    · rw [max_eq_right (by linarith)]
    · rw [max_eq_left (by linarith)]

/-- Witness for C5 amended at the one-device port. -/
theorem c5_amended_sleep_estimate_witness :
    adjust_polling_interval portC5 =
      .ok (max 0 (minEnabledInterval portC5 - (portC5.devices.length : ℚ) * 0.05)) :=
  c5_amended_sleep_estimate portC5 (by decide) (by decide)

/-- Per-device statistics entry (src/port_manager.py lines 42-47). -/
structure DeviceStat where
  total_polls : Nat
  successful_polls : Nat
  failed_polls : Nat
  last_response_time : ℚ
deriving DecidableEq

/-- The defaultdict entry of device_stats: all counters zero. -/
def defaultDeviceStat : DeviceStat := ⟨0, 0, 0, 0⟩

/-- Lookup in the device_stats defaultdict. -/
def getDeviceStat (m : List (String × DeviceStat)) (name : String) : DeviceStat :=
  match m.find? (fun kv => kv.1 = name) with
  | some kv => kv.2
  | none => defaultDeviceStat

/-- Store back into the device_stats map, keeping insertion order and
appending a fresh entry for an unseen name (defaultdict behaviour). -/
def setDeviceStat (m : List (String × DeviceStat)) (name : String) (d : DeviceStat) :
    List (String × DeviceStat) :=
  match m with
  | [] => [(name, d)]
  | kv :: rest =>
    if kv.1 = name then (name, d) :: rest else kv :: setDeviceStat rest name d

/-- Adding to the connected_devices set: a name enters once. -/
def addDevice (l : List String) (name : String) : List String :=
  if name ∈ l then l else l ++ [name]

/-- Append to the response_times deque of maxlen 100: when full, the
oldest latency is dropped. -/
def dequeAppend (l : List ℚ) (x : ℚ) : List ℚ :=
  if l.length < 100 then l ++ [x] else l.tail ++ [x]

/-- PortStatistics state (src/port_manager.py lines 29-47).  The wall
clock read by datetime.now() is passed to record_poll explicitly as a
timestamp parameter. -/
structure StatsState where
  port_name : String
  total_polls : Nat
  successful_polls : Nat
  failed_polls : Nat
  response_times : List ℚ
  last_success : Option ℚ
  last_error : Option ℚ
  error_count : Nat
  connected_devices : List String
  device_stats : List (String × DeviceStat)
deriving DecidableEq

/-- PortStatistics.__init__ (src/port_manager.py lines 32-47). -/
def initStats (port_name : String) : StatsState :=
  ⟨port_name, 0, 0, 0, [], none, none, 0, [], []⟩

/-- PortStatistics.record_poll (src/port_manager.py lines 49-70):
total_polls always increments; the success and failure branches run only
when device_name is truthy (non-empty); the latency enters the window only
when it is strictly positive. -/
def record_poll (s : StatsState) (device_name : String) (success : Bool)
    (response_time : ℚ) (now : ℚ) : StatsState :=
  let s1 := { s with total_polls := s.total_polls + 1 }
  let s2 :=
    if device_name ≠ "" then
      let ds := getDeviceStat s1.device_stats device_name
      let ds1 := { ds with total_polls := ds.total_polls + 1 }
      if success then
        { s1 with
          successful_polls := s1.successful_polls + 1,
          device_stats := setDeviceStat s1.device_stats device_name
            { ds1 with successful_polls := ds1.successful_polls + 1,
                       last_response_time := response_time },
          last_success := some now,
          connected_devices := addDevice s1.connected_devices device_name }
      else
        { s1 with
          failed_polls := s1.failed_polls + 1,
          device_stats := setDeviceStat s1.device_stats device_name
            { ds1 with failed_polls := ds1.failed_polls + 1 },
          last_error := some now,
          error_count := s1.error_count + 1 }
    else s1
  if response_time > 0 then
    { s2 with response_times := dequeAppend s2.response_times response_time }
  else s2

/-- The avg_response_time_ms entry of PortStatistics.get_stats
(src/port_manager.py lines 74-76 and 88): mean over the window, 0 when
empty, reported in milliseconds. -/
def avgResponseTimeMs (s : StatsState) : ℚ :=
  if s.response_times = [] then 0
  else (s.response_times.sum / s.response_times.length) * 1000

/-- The status derivation of PortManager.get_port_status
(src/port_manager.py lines 690-698), on the stats snapshot: the Python
comparison successful_polls / 2 is true division, modelled in ℚ. -/
def get_port_status (s : StatsState) : String :=
  if s.error_count > 10 ∧ s.successful_polls = 0 then "error"
  else if (s.error_count : ℚ) > (s.successful_polls : ℚ) / 2 then "error"
  else if s.connected_devices.length = 0 then "disconnected"
  else "running"

/-- The derived port status as the specification words it (spec section
4.7): Error when errorCount exceeds 10 with no successful poll, or when
errorCount exceeds half the successful polls; else Disconnected when the
connected-devices set is empty; else Running. -/
def specDerivedStatus (s : StatsState) : String :=
  if (s.error_count > 10 ∧ s.successful_polls = 0) ∨
     (s.error_count : ℚ) > (s.successful_polls : ℚ) / 2 then "error"
  else if s.connected_devices.length = 0 then "disconnected"
  else "running"

/-- C6: for every statistics state the status the code derives equals the
three-way rule of the specification. -/
theorem c6_derived_status (s : StatsState) :
    get_port_status s = specDerivedStatus s := by
  unfold get_port_status specDerivedStatus
  split_ifs <;> tauto

/-- One recorded poll: the arguments of a record_poll invocation. -/
structure PollEvent where
  device_name : String
  success : Bool
  response_time : ℚ
  now : ℚ

/-- A sequence of record_poll invocations within one runner session. -/
def runPolls (s : StatsState) : List PollEvent → StatsState
  | [] => s
  | e :: es => runPolls (record_poll s e.device_name e.success e.response_time e.now) es

/-- C7 counterexample: a record_poll invocation whose device_name is the
empty string (falsy in Python) increments total_polls but neither
successful_polls nor failed_polls, so the sum invariant the claim asserts
for every invocation sequence fails after a single call. -/
theorem c7_empty_name_breaks_sum :
    (record_poll (initStats "p") "" true 1 0).total_polls = 1 ∧
    (record_poll (initStats "p") "" true 1 0).successful_polls +
        (record_poll (initStats "p") "" true 1 0).failed_polls ≠
      (record_poll (initStats "p") "" true 1 0).total_polls := by
  decide

theorem record_poll_counters_mono (s : StatsState) (n : String) (b : Bool)
    (rt now : ℚ) :
    s.total_polls ≤ (record_poll s n b rt now).total_polls ∧
    s.successful_polls ≤ (record_poll s n b rt now).successful_polls ∧
    s.failed_polls ≤ (record_poll s n b rt now).failed_polls ∧
    s.error_count ≤ (record_poll s n b rt now).error_count := by
  simp only [record_poll]
  split_ifs <;> simp

theorem record_poll_sum_invariant (s : StatsState) (n : String) (b : Bool)
    (rt now : ℚ) (hn : n ≠ "")
    (h : s.successful_polls + s.failed_polls = s.total_polls) :
    (record_poll s n b rt now).successful_polls +
        (record_poll s n b rt now).failed_polls =
      (record_poll s n b rt now).total_polls := by
  simp only [record_poll]
  split_ifs <;> simp_all <;> omega

/-- C7 amended: across every sequence of record_poll invocations all four
port counters are monotonically non-decreasing, and when every invocation
carries a non-empty device name the invariant successful plus failed
equals total is preserved along the whole run. -/
theorem c7_amended_counters (s : StatsState) (evs : List PollEvent) :
    (s.total_polls ≤ (runPolls s evs).total_polls ∧
     s.successful_polls ≤ (runPolls s evs).successful_polls ∧
     s.failed_polls ≤ (runPolls s evs).failed_polls ∧
     s.error_count ≤ (runPolls s evs).error_count) ∧
    ((∀ e ∈ evs, e.device_name ≠ "") →
      s.successful_polls + s.failed_polls = s.total_polls →
      (runPolls s evs).successful_polls + (runPolls s evs).failed_polls =
        (runPolls s evs).total_polls) := by
  induction evs generalizing s with
  | nil => simp [runPolls]
  | cons e es ih =>
    refine ⟨?_, ?_⟩
    · have h1 := record_poll_counters_mono s e.device_name e.success e.response_time e.now
      have h2 := (ih (record_poll s e.device_name e.success e.response_time e.now)).1
      simp only [runPolls]
      exact ⟨le_trans h1.1 h2.1, le_trans h1.2.1 h2.2.1,
             le_trans h1.2.2.1 h2.2.2.1, le_trans h1.2.2.2 h2.2.2.2⟩
    · intro hall hsum
      have hn := hall e (List.mem_cons_self e es)
      have hstep := record_poll_sum_invariant s e.device_name e.success
        e.response_time e.now hn hsum
      simp only [runPolls]
      exact (ih _).2 (fun x hx => hall x (List.mem_cons_of_mem e hx)) hstep

/-- Witness for C7 amended: a success and a failure with non-empty device
names keep the sum invariant. -/
theorem c7_amended_counters_witness :
    (runPolls (initStats "p") [⟨"d", true, 1, 0⟩, ⟨"d", false, 0, 1⟩]).successful_polls +
        (runPolls (initStats "p") [⟨"d", true, 1, 0⟩, ⟨"d", false, 0, 1⟩]).failed_polls =
      (runPolls (initStats "p") [⟨"d", true, 1, 0⟩, ⟨"d", false, 0, 1⟩]).total_polls :=
  (c7_amended_counters (initStats "p") [⟨"d", true, 1, 0⟩, ⟨"d", false, 0, 1⟩]).2
    (by decide) (by decide)

theorem mem_dequeAppend {l : List ℚ} {a x : ℚ} (h : x ∈ dequeAppend l a) :
    x ∈ l ∨ x = a := by
  unfold dequeAppend at h
  split_ifs at h <;> rcases List.mem_append.mp h with h | h
  · exact Or.inl h
  · exact Or.inr (List.mem_singleton.mp h)
  · exact Or.inl (List.mem_of_mem_tail h)
  · exact Or.inr (List.mem_singleton.mp h)

theorem record_poll_response_times (s : StatsState) (n : String) (b : Bool)
    (rt now : ℚ) :
    (record_poll s n b rt now).response_times =
      if rt > 0 then dequeAppend s.response_times rt else s.response_times := by
  simp only [record_poll]
  split_ifs <;> rfl

/-- C9: the response-time window only ever receives strictly positive
latencies, so positivity of all window entries is preserved by every
record_poll call; and a failed poll recorded with the default
response_time 0 leaves the window, hence the average response time,
unchanged. -/
theorem c9_window_positive (s : StatsState) (n : String) (b : Bool)
    (rt now : ℚ) :
    ((∀ x ∈ s.response_times, 0 < x) →
      ∀ x ∈ (record_poll s n b rt now).response_times, 0 < x) ∧
    (record_poll s n false 0 now).response_times = s.response_times ∧
    avgResponseTimeMs (record_poll s n false 0 now) = avgResponseTimeMs s := by
  have h0 : (record_poll s n false 0 now).response_times = s.response_times := by
    rw [record_poll_response_times, if_neg (lt_irrefl 0)]
  refine ⟨?_, h0, ?_⟩
  · intro hpos x hx
    rw [record_poll_response_times] at hx
    by_cases hrt : rt > 0
    · rw [if_pos hrt] at hx
      rcases mem_dequeAppend hx with h | rfl
      · exact hpos x h
      · exact hrt
    · rw [if_neg hrt] at hx
      exact hpos x hx
  · unfold avgResponseTimeMs
    rw [h0]

/-- Witness for C9: from the empty window a successful poll with latency
5/2 keeps every entry positive, and a failed poll with latency 0 leaves
the window empty. -/
theorem c9_window_positive_witness :
    (∀ x ∈ (record_poll (initStats "p") "d" true (5/2) 0).response_times, 0 < x) ∧
    (record_poll (initStats "p") "d" false 0 0).response_times =
      (initStats "p").response_times :=
  ⟨(c9_window_positive (initStats "p") "d" true (5/2) 0).1 (by simp [initStats]),
   (c9_window_positive (initStats "p") "d" false 0 0).2.1⟩

/-- Connect-attempt count of the poll_port retry loop (src/port_manager.py
lines 321-421) on a trace of per-iteration connection outcomes: the loop
runs while retry_count is below max_retries, makes one connect attempt per
iteration, resets retry_count to zero on a successful connection (line
347) and increments it on a ConnectionException (line 403); the trace ends
when the runner is stopped. -/
def pollPortAttempts (maxR : Nat) : List Bool → Nat → Nat
  | [], _ => 0
  | true :: rest, rc => if rc < maxR then pollPortAttempts maxR rest 0 + 1 else 0
  | false :: rest, rc => if rc < maxR then pollPortAttempts maxR rest (rc + 1) + 1 else 0

/-- Retry-delay sleeps of the poll_port retry loop on the same trace: after
a failed connection the loop sleeps retry_delay only while the incremented
retry_count is still below max_retries (src/port_manager.py lines 404-406). -/
def pollPortSleeps (maxR : Nat) (delay : ℚ) : List Bool → Nat → List ℚ
  | [], _ => []
  | true :: rest, rc => if rc < maxR then pollPortSleeps maxR delay rest 0 else []
  | false :: rest, rc =>
    if rc < maxR then
      if rc + 1 < maxR then delay :: pollPortSleeps maxR delay rest (rc + 1)
      else pollPortSleeps maxR delay rest (rc + 1)
    else []

theorem pollPortAttempts_replicate (maxR : Nat) :
    ∀ (n rc : Nat), maxR ≤ n + rc →
      pollPortAttempts maxR (List.replicate n false) rc = maxR - rc := by
  intro n
  induction n with
  | zero =>
    intro rc h
    simp only [List.replicate, pollPortAttempts]
    omega
  | succ n ih =>
    intro rc h
    rw [List.replicate_succ]
    simp only [pollPortAttempts]
    by_cases hrc : rc < maxR
    · rw [if_pos hrc, ih (rc + 1) (by omega)]
      omega
    · rw [if_neg hrc]
      omega

theorem pollPortSleeps_replicate (maxR : Nat) (delay : ℚ) :
    ∀ (n rc : Nat), maxR ≤ n + rc →
      pollPortSleeps maxR delay (List.replicate n false) rc =
        List.replicate (maxR - rc - 1) delay := by
  intro n
  induction n with
  | zero =>
    intro rc h
    simp only [List.replicate, pollPortSleeps]
    rw [show maxR - rc - 1 = 0 by omega, List.replicate_zero]
  | succ n ih =>
    intro rc h
    rw [List.replicate_succ]
    simp only [pollPortSleeps]
    by_cases hrc : rc < maxR
    · rw [if_pos hrc]
      by_cases hrc1 : rc + 1 < maxR
      · rw [if_pos hrc1, ih (rc + 1) (by omega),
          show maxR - rc - 1 = (maxR - (rc + 1) - 1) + 1 by omega,
          List.replicate_succ]
      · rw [if_neg hrc1, ih (rc + 1) (by omega)]
        congr 1
        omega
    · rw [if_neg hrc, show maxR - rc - 1 = 0 by omega, List.replicate_zero]

theorem pollPortAttempts_append_failures (maxR : Nat) :
    ∀ (k rc : Nat) (tr : List Bool), rc + k ≤ maxR →
      pollPortAttempts maxR (List.replicate k false ++ tr) rc =
        k + pollPortAttempts maxR tr (rc + k) := by
  intro k
  induction k with
  | zero =>
    intro rc tr h
    simp [List.replicate]
  | succ k ih =>
    intro rc tr h
    rw [List.replicate_succ, List.cons_append]
    simp only [pollPortAttempts]
    rw [if_pos (by omega), ih (rc + 1) tr (by omega),
      show rc + 1 + k = rc + (k + 1) by omega]
    omega

/-- C8 counterexample: with max_retries = 3 a run of consecutive
connection failures makes the loop perform exactly 3 connect attempts
before the terminal error, not 3 + 1 as the claim states. -/
theorem c8_attempts_off_by_one :
    pollPortAttempts 3 (List.replicate 10 false) 0 = 3 ∧
    pollPortAttempts 3 (List.replicate 10 false) 0 ≠ 3 + 1 := by
  decide

/-- C8 amended: a run of consecutive connection failures yields exactly
max_retries connect attempts before the terminal error, with a
retry_delay sleep between consecutive attempts (max_retries minus one
sleeps, each of length retry_delay); and because a successful connection
resets the retry counter, a success after k earlier failures is followed
by a fresh full run of max_retries failing attempts. -/
theorem c8_amended_retry_counts (maxR : Nat) (delay : ℚ) (n : Nat)
    (hn : maxR ≤ n) :
    pollPortAttempts maxR (List.replicate n false) 0 = maxR ∧
    pollPortSleeps maxR delay (List.replicate n false) 0 =
      List.replicate (maxR - 1) delay ∧
    (∀ k, k < maxR →
      pollPortAttempts maxR
          (List.replicate k false ++ true :: List.replicate n false) 0 =
        k + 1 + maxR) := by
  refine ⟨?_, ?_, ?_⟩
  · have h := pollPortAttempts_replicate maxR n 0 (by omega)
    simpa using h
  · have h := pollPortSleeps_replicate maxR delay n 0 (by omega)
    simpa using h
  · intro k hk
    rw [pollPortAttempts_append_failures maxR k 0 _ (by omega)]
    simp only [pollPortAttempts, Nat.zero_add]
    rw [if_pos hk, pollPortAttempts_replicate maxR n 0 (by omega)]
    omega

/-- Witness for C8 amended with max_retries 2, retry_delay 7 and a trace
of three failures. -/
theorem c8_amended_retry_counts_witness :
    pollPortAttempts 2 (List.replicate 3 false) 0 = 2 ∧
    pollPortSleeps 2 (7 : ℚ) (List.replicate 3 false) 0 =
      List.replicate (2 - 1) (7 : ℚ) ∧
    pollPortAttempts 2 (List.replicate 1 false ++ true :: List.replicate 3 false) 0 =
      1 + 1 + 2 :=
  ⟨(c8_amended_retry_counts 2 7 3 (by decide)).1,
   (c8_amended_retry_counts 2 7 3 (by decide)).2.1,
   (c8_amended_retry_counts 2 7 3 (by decide)).2.2 1 (by decide)⟩

set_option maxRecDepth 8192 in
theorem bitsToNat_byteToBits : ∀ b < 256, bitsToNat (byteToBits b) = b := by
  decide

theorem register_bits_to_bytes_append (b1 b2 : Nat) (bo : String)
    (h1 : b1 < 256) (h2 : b2 < 256) :
    register_bits_to_bytes (byteToBits b1 ++ byteToBits b2) bo =
      (if bo = "big" then .ok (b1 * 256 + b2)
       else if bo = "little" then .ok (b2 * 256 + b1)
       else .error "unknown byte order") := by
  unfold register_bits_to_bytes
  have hlen : (byteToBits b1 ++ byteToBits b2).length = 16 := rfl
  rw [if_neg (by simp [hlen])]
  have ht : (byteToBits b1 ++ byteToBits b2).take 8 = byteToBits b1 := rfl
  have hd : (byteToBits b1 ++ byteToBits b2).drop 8 = byteToBits b2 := rfl
  simp only [ht, hd, bitsToNat_byteToBits b1 h1, bitsToNat_byteToBits b2 h2]

/-- C10: converting any register value below 65536 to its 16-bit string
and back, with the same byte order on both sides, returns the original
value. -/
theorem c10_bits_roundtrip (v : Nat) (byteorder : String)
    (hv : v ≤ 0xFFFF) (hbo : byteorder = "big" ∨ byteorder = "little") :
    (register_to_bits v byteorder).bind
      (fun bits => register_bits_to_bytes bits byteorder) = .ok v := by
  rcases hbo with rfl | rfl
  · unfold register_to_bits
    rw [if_neg (by omega), if_pos rfl]
    show register_bits_to_bytes _ "big" = _
    rw [register_bits_to_bytes_append _ _ _ (by omega) (by omega), if_pos rfl]
    congr 1
    omega
  · unfold register_to_bits
    rw [if_neg (by omega), if_neg (by decide), if_pos rfl]
    show register_bits_to_bytes _ "little" = _
    rw [register_bits_to_bytes_append _ _ _ (by omega) (by omega),
      if_neg (by decide), if_pos rfl]
    congr 1
    omega

/-- Witness for C10 at register value 0xABCD with both byte orders covered
by the big-endian instance. -/
theorem c10_bits_roundtrip_witness :
    (register_to_bits 0xABCD "little").bind
      (fun bits => register_bits_to_bytes bits "little") = .ok 0xABCD :=
  c10_bits_roundtrip 0xABCD "little" (by decide) (Or.inr rfl)

end ModbusGateway
